import Mathlib

/-!
Verification of the zendesk-mcp-server repository (two Python source files,
`server.py` and `zendesk_client.py`) against its natural-language
specification.  The development shallowly embeds the data model and the
operations of the source: Python values become an inductive `PyVal`,
dictionaries become association lists with Python insertion-order update
semantics, raising code returns `Except PyErr`, and the remote Zendesk API
(an external collaborator) is a parameter of each operation.
-/

set_option maxHeartbeats 1000000

/-- Python-style dynamic values as they flow through the server: `None`,
booleans, integers, strings, lists and string-keyed dictionaries.  Numeric
JSON values are modelled as integers (the server never manipulates floats). -/
inductive PyVal where
  | none : PyVal
  | bool : Bool → PyVal
  | int : Int → PyVal
  | str : String → PyVal
  | list : List PyVal → PyVal
  | dict : List (String × PyVal) → PyVal

/-- Python exceptions raised by the embedded code, carrying the payload that
`str(e)` would render. -/
inductive PyErr where
  | keyError : String → PyErr
  | valueError : String → PyErr
  | typeError : String → PyErr
deriving DecidableEq

/-- A single-quote character, used when rendering Python exception messages
and `repr` output. -/
def apos : String := String.singleton (Char.ofNat 39)

/-- Python `str(e)` for the embedded exceptions: `str(KeyError(k))` renders
the missing key in quotes, `ValueError` and `TypeError` render their message. -/
def errStr : PyErr → String
  | PyErr.keyError k => apos ++ k ++ apos
  | PyErr.valueError m => m
  | PyErr.typeError m => m

/-- Lookup in a Python dictionary modelled as an association list
(`d.get(k)` without default returns `None`; this returns `Option` so that
absence is distinguishable). -/
def dictGet (d : List (String × PyVal)) (k : String) : Option PyVal :=
  match d with
  | [] => Option.none
  | (k2, v) :: rest => if k2 = k then some v else dictGet rest k

/-- Python `d.get(k, default)`. -/
def dictGetD (d : List (String × PyVal)) (k : String) (dflt : PyVal) : PyVal :=
  (dictGet d k).getD dflt

/-- Python `d[k]`: the value when the key is present, a `KeyError` otherwise. -/
def dictIndex (d : List (String × PyVal)) (k : String) : Except PyErr PyVal :=
  match dictGet d k with
  | some v => Except.ok v
  | Option.none => Except.error (PyErr.keyError k)

/-- Python `d[k] = v` on an insertion-ordered dictionary: an existing key is
updated in place, a new key is appended at the end. -/
def dictSet (d : List (String × PyVal)) (k : String) (v : PyVal) : List (String × PyVal) :=
  match d with
  | [] => [(k, v)]
  | (k2, v2) :: rest => if k2 = k then (k2, v) :: rest else (k2, v2) :: dictSet rest k v

/-- Python `x is None`. -/
def pyIsNone : PyVal → Bool
  | PyVal.none => true
  | _ => false

/-- Python truthiness: `None`, `False`, `0`, `""` and empty containers are
falsy, everything else is truthy. -/
def pyTruthy : PyVal → Bool
  | PyVal.none => false
  | PyVal.bool b => b
  | PyVal.int n => decide (n ≠ 0)
  | PyVal.str s => decide (s ≠ "")
  | PyVal.list l => !l.isEmpty
  | PyVal.dict d => !d.isEmpty

/-- Whitespace characters stripped by Python's `str.strip()` (the subset the
templates of this server can contain). -/
def isPySpace (c : Char) : Bool :=
  c == ' ' || c == '\t' || c == '\n' || c == '\r'

/-- Python `str.strip()`: drop leading and trailing whitespace. -/
def pyStrip (s : String) : String :=
  String.mk (((s.toList.dropWhile isPySpace).reverse.dropWhile isPySpace).reverse)

/-- Decimal digit accumulator for `pyInt`: `some` of the value when every
character is an ASCII digit, `none` otherwise. -/
def digitsVal : List Char → Nat → Option Nat
  | [], acc => some acc
  | c :: rest, acc =>
      if c.isDigit then digitsVal rest (acc * 10 + (c.toNat - 48)) else Option.none

/-- Python `int(s)` on a string: strips surrounding whitespace, accepts an
optional sign followed by decimal digits, raises `ValueError` otherwise. -/
def pyInt (s : String) : Except PyErr Int :=
  let err : Except PyErr Int :=
    Except.error (PyErr.valueError
      ("invalid literal for int() with base 10: " ++ apos ++ s ++ apos))
  match (pyStrip s).toList with
  | [] => err
  | c :: rest =>
      if c = '-' then
        match rest with
        | [] => err
        | _ =>
          match digitsVal rest 0 with
          | some m => Except.ok (-(m : Int))
          | Option.none => err
      else if c = '+' then
        match rest with
        | [] => err
        | _ =>
          match digitsVal rest 0 with
          | some m => Except.ok (m : Int)
          | Option.none => err
      else
        match digitsVal (c :: rest) 0 with
        | some m => Except.ok (m : Int)
        | Option.none => err

/-- Python `int(x)` on a dynamic value: integers pass through, booleans
coerce, strings are parsed, other values raise `TypeError`. -/
def pyIntOf : PyVal → Except PyErr Int
  | PyVal.int n => Except.ok n
  | PyVal.bool b => Except.ok (if b then 1 else 0)
  | PyVal.str s => pyInt s
  | _ => Except.error (PyErr.typeError "int() argument must be a string or a number")

/-- Fuel-driven core of Python `str.replace`: scans left to right and
replaces every non-overlapping occurrence of the (non-empty) pattern.  The
fuel starts at the length of the input and decreases by one per step; a
match consumes at least one input character per unit of fuel, so the fuel
never runs out before the input does. -/
def replaceFuel (pat rep : List Char) : Nat → List Char → List Char
  | _, [] => []
  | 0, s => s
  | Nat.succ n, c :: cs =>
      if pat.isPrefixOf (c :: cs) && !pat.isEmpty then
        rep ++ replaceFuel pat rep n (List.drop (pat.length - 1) cs)
      else
        c :: replaceFuel pat rep n cs

/-- Python `s.replace(pat, rep)` for a non-empty pattern: every occurrence is
replaced, scanning left to right without overlap. -/
def pyReplace (s pat rep : String) : String :=
  String.mk (replaceFuel pat.toList rep.toList s.toList.length s.toList)

/-- JSON string escaping used by `json.dumps` for the characters that occur
in this server's data. -/
def jsonEscapeChar (c : Char) : String :=
  if c = '"' then "\\\""
  else if c = '\\' then "\\\\"
  else if c = '\n' then "\\n"
  else if c = '\t' then "\\t"
  else if c = '\r' then "\\r"
  else String.singleton c

/-- A JSON-quoted string literal. -/
def quoteJson (s : String) : String :=
  "\"" ++ String.join (s.toList.map jsonEscapeChar) ++ "\""

mutual
/-- Python `json.dumps` on the embedded values.  Key order is the
dictionary's insertion order, as in CPython; the whitespace layout of the
`indent` keyword is not modelled (no claim inspects layout). -/
def jsonDumps : PyVal → String
  | PyVal.none => "null"
  | PyVal.bool b => if b then "true" else "false"
  | PyVal.int n => toString n
  | PyVal.str s => quoteJson s
  | PyVal.list xs => "[" ++ String.intercalate ", " (jsonDumpsList xs) ++ "]"
  | PyVal.dict kvs => "\x7b" ++ String.intercalate ", " (jsonDumpsDict kvs) ++ "\x7d"

/-- Serialization of the elements of a JSON array. -/
def jsonDumpsList : List PyVal → List String
  | [] => []
  | x :: xs => jsonDumps x :: jsonDumpsList xs

/-- Serialization of the entries of a JSON object. -/
def jsonDumpsDict : List (String × PyVal) → List String
  | [] => []
  | (k, v) :: xs => (quoteJson k ++ ": " ++ jsonDumps v) :: jsonDumpsDict xs
end

mutual
/-- Python `repr` on the embedded values (list and dict literals with
single-quoted strings), used by f-string interpolation of containers. -/
def pyRepr : PyVal → String
  | PyVal.none => "None"
  | PyVal.bool b => if b then "True" else "False"
  | PyVal.int n => toString n
  | PyVal.str s => apos ++ s ++ apos
  | PyVal.list xs => "[" ++ String.intercalate ", " (pyReprList xs) ++ "]"
  | PyVal.dict kvs => "\x7b" ++ String.intercalate ", " (pyReprDict kvs) ++ "\x7d"

/-- Representation of list elements for `pyRepr`. -/
def pyReprList : List PyVal → List String
  | [] => []
  | x :: xs => pyRepr x :: pyReprList xs

/-- Representation of dict entries for `pyRepr`. -/
def pyReprDict : List (String × PyVal) → List String
  | [] => []
  | (k, v) :: xs => (apos ++ k ++ apos ++ ": " ++ pyRepr v) :: pyReprDict xs
end

/-- Python `str(x)`: the string itself for strings, `repr` otherwise. -/
def pyStr : PyVal → String
  | PyVal.str s => s
  | v => pyRepr v

/-- A `types.TextContent` protocol object: the `type` tag (always `"text"`
here) and the text payload. -/
structure TextContent where
  type : String
  text : String
deriving DecidableEq

/-- The error result produced by `handle_call_tool`'s `except` clause:
a single text content whose text is `"Error: "` followed by the message. -/
def errContent (e : PyErr) : TextContent :=
  TextContent.mk "text" ("Error: " ++ errStr e)

/-- One entry of the static tool catalog declared by `handle_list_tools`:
the tool name and the `required` list of its JSON-schema input contract
(the property part of the schemas plays no role in any claim and is not
modelled). -/
structure ToolDecl where
  name : String
  required : List String
deriving DecidableEq

/-- The static catalog returned by `handle_list_tools`, with each tool's
declared `required` argument list. -/
def handle_list_tools : List ToolDecl :=
  [ ToolDecl.mk "get_ticket" ["ticket_id"],
    ToolDecl.mk "create_ticket" ["subject", "description"],
    ToolDecl.mk "get_tickets" [],
    ToolDecl.mk "get_ticket_comments" ["ticket_id"],
    ToolDecl.mk "create_ticket_comment" ["ticket_id", "comment"],
    ToolDecl.mk "update_ticket" ["ticket_id"],
    ToolDecl.mk "get_user" ["user_id"],
    ToolDecl.mk "search_users_by_email" ["email"],
    ToolDecl.mk "create_user" ["email", "name"],
    ToolDecl.mk "get_user_tickets" ["user_id"] ]

/-- The `required` list the catalog declares for a tool name. -/
def toolRequired (n : String) : Option (List String) :=
  (handle_list_tools.find? (fun t => t.name == n)).map ToolDecl.required

/-- The keyword arguments `handle_call_tool` passes to
`zendesk_client.create_ticket`, in source order. -/
structure CreateTicketArgs where
  subject : PyVal
  description : PyVal
  requester_id : PyVal
  assignee_id : PyVal
  priority : PyVal
  type : PyVal
  tags : PyVal
  custom_fields : PyVal

/-- The `ZendeskClient` instance as seen by the dispatcher: each method
either raises or returns the reshaped record, with the outcome determined by
the remote Zendesk API (an external collaborator), so the methods are
arbitrary functions of their parameters. -/
structure ZendeskOps where
  get_ticket : PyVal → Except PyErr PyVal
  create_ticket : CreateTicketArgs → Except PyErr PyVal
  get_tickets : PyVal → PyVal → PyVal → PyVal → Except PyErr PyVal
  get_ticket_comments : PyVal → Except PyErr PyVal
  post_comment : PyVal → PyVal → PyVal → Except PyErr PyVal
  update_ticket : Int → List (String × PyVal) → Except PyErr PyVal
  get_user : PyVal → Except PyErr PyVal
  search_users_by_email : PyVal → Except PyErr (List PyVal)
  create_user : PyVal → PyVal → PyVal → PyVal → PyVal → Except PyErr PyVal
  get_user_tickets : PyVal → PyVal → Except PyErr (List PyVal)

/-- The `if not arguments: raise ValueError("Missing arguments")` guard at
the head of most dispatch branches (`None` and the empty dictionary are both
falsy). -/
def requireArgs (arguments : Option (List (String × PyVal))) :
    Except PyErr (List (String × PyVal)) :=
  match arguments with
  | Option.none => Except.error (PyErr.valueError "Missing arguments")
  | some [] => Except.error (PyErr.valueError "Missing arguments")
  | some d => Except.ok d

/-- The body of `handle_call_tool`'s `try` block: the dispatch on the tool
name, each branch delegating to the API adapter and serializing the result
as text content.  Raising is returning `Except.error`. -/
def callToolBody (z : ZendeskOps) (name : String)
    (arguments : Option (List (String × PyVal))) :
    Except PyErr (List TextContent) :=
  if name = "get_ticket" then do
    let args ← requireArgs arguments
    let tid ← dictIndex args "ticket_id"
    let ticket ← z.get_ticket tid
    Except.ok [TextContent.mk "text" (jsonDumps ticket)]
  else if name = "create_ticket" then do
    let args ← requireArgs arguments
    let created ← z.create_ticket
      (CreateTicketArgs.mk
        (dictGetD args "subject" PyVal.none)
        (dictGetD args "description" PyVal.none)
        (dictGetD args "requester_id" PyVal.none)
        (dictGetD args "assignee_id" PyVal.none)
        (dictGetD args "priority" PyVal.none)
        (dictGetD args "type" PyVal.none)
        (dictGetD args "tags" PyVal.none)
        (dictGetD args "custom_fields" PyVal.none))
    Except.ok [TextContent.mk "text"
      (jsonDumps (PyVal.dict
        [("message", PyVal.str "Ticket created successfully"), ("ticket", created)]))]
  else if name = "get_tickets" then do
    let args := arguments.getD []
    let page := dictGetD args "page" (PyVal.int 1)
    let per_page := dictGetD args "per_page" (PyVal.int 25)
    let sort_by := dictGetD args "sort_by" (PyVal.str "created_at")
    let sort_order := dictGetD args "sort_order" (PyVal.str "desc")
    let tickets ← z.get_tickets page per_page sort_by sort_order
    Except.ok [TextContent.mk "text" (jsonDumps tickets)]
  else if name = "get_ticket_comments" then do
    let args ← requireArgs arguments
    let tid ← dictIndex args "ticket_id"
    let comments ← z.get_ticket_comments tid
    Except.ok [TextContent.mk "text" (jsonDumps comments)]
  else if name = "create_ticket_comment" then do
    let args ← requireArgs arguments
    let pub := dictGetD args "public" (PyVal.bool true)
    let tid ← dictIndex args "ticket_id"
    let comment ← dictIndex args "comment"
    let result ← z.post_comment tid comment pub
    Except.ok [TextContent.mk "text" ("Comment created successfully: " ++ pyStr result)]
  else if name = "update_ticket" then do
    let args ← requireArgs arguments
    let tid := dictGetD args "ticket_id" PyVal.none
    if pyIsNone tid then
      Except.error (PyErr.valueError "ticket_id is required")
    else do
      let update_fields := args.filter (fun kv => !(kv.1 == "ticket_id"))
      let tidInt ← pyIntOf tid
      let updated ← z.update_ticket tidInt update_fields
      Except.ok [TextContent.mk "text"
        (jsonDumps (PyVal.dict
          [("message", PyVal.str "Ticket updated successfully"), ("ticket", updated)]))]
  else if name = "get_user" then do
    let args ← requireArgs arguments
    let uid ← dictIndex args "user_id"
    let user ← z.get_user uid
    Except.ok [TextContent.mk "text" (jsonDumps user)]
  else if name = "search_users_by_email" then do
    let args ← requireArgs arguments
    let email ← dictIndex args "email"
    let users ← z.search_users_by_email email
    Except.ok [TextContent.mk "text"
      (jsonDumps (PyVal.dict
        [("found", PyVal.int users.length), ("users", PyVal.list users)]))]
  else if name = "create_user" then do
    let args ← requireArgs arguments
    let email ← dictIndex args "email"
    let uname ← dictIndex args "name"
    let user ← z.create_user email uname
      (dictGetD args "role" PyVal.none)
      (dictGetD args "phone" PyVal.none)
      (dictGetD args "organization_id" PyVal.none)
    Except.ok [TextContent.mk "text"
      (jsonDumps (PyVal.dict
        [("message", PyVal.str "User created successfully"), ("user", user)]))]
  else if name = "get_user_tickets" then do
    let args ← requireArgs arguments
    let uid ← dictIndex args "user_id"
    let status := dictGetD args "status" PyVal.none
    let tickets ← z.get_user_tickets uid status
    Except.ok [TextContent.mk "text"
      (jsonDumps (PyVal.dict
        [("user_id", uid), ("count", PyVal.int tickets.length),
         ("tickets", PyVal.list tickets)]))]
  else
    Except.error (PyErr.valueError ("Unknown tool: " ++ name))

/-- `handle_call_tool`: the dispatch body wrapped in the
`try ... except Exception` clause that turns any raised exception into a
one-element error text content. -/
def handle_call_tool (z : ZendeskOps) (name : String)
    (arguments : Option (List (String × PyVal))) : List TextContent :=
  match callToolBody z name arguments with
  | Except.ok r => r
  | Except.error e => [errContent e]

/-- A `types.PromptMessage`: a role and a text content. -/
structure PromptMessage where
  role : String
  content : TextContent
deriving DecidableEq

/-- A `types.GetPromptResult`: a description and the list of messages. -/
structure GetPromptResult where
  description : String
  messages : List PromptMessage
deriving DecidableEq

/-- The `TICKET_ANALYSIS_TEMPLATE` string constant of `server.py`. -/
def TICKET_ANALYSIS_TEMPLATE : String :=
  "\nYou are a helpful Zendesk support analyst. You" ++ apos ++
  "ve been asked to analyze ticket #\x7bticket_id\x7d.\n\n" ++
  "Please fetch the ticket info and comments to analyze it and provide:\n" ++
  "1. A summary of the issue\n" ++
  "2. The current status and timeline\n" ++
  "3. Key points of interaction\n\n" ++
  "Remember to be professional and focus on actionable insights.\n"

/-- The `COMMENT_DRAFT_TEMPLATE` string constant of `server.py`. -/
def COMMENT_DRAFT_TEMPLATE : String :=
  "\nYou are a helpful Zendesk support agent. " ++
  "You need to draft a response to ticket #\x7bticket_id\x7d.\n\n" ++
  "Please fetch the ticket info, comments and knowledge base to draft " ++
  "a professional and helpful response that:\n" ++
  "1. Acknowledges the customer" ++ apos ++ "s concern\n" ++
  "2. Addresses the specific issues raised\n" ++
  "3. Provides clear next steps or ask for specific details need to proceed\n" ++
  "4. Maintains a friendly and professional tone\n" ++
  "5. Ask for confirmation before commenting on the ticket\n\n" ++
  "The response should be formatted well and ready to be posted as a comment.\n"

/-- Python `template.format(ticket_id=n)` for the two templates above, whose
only placeholder is the `ticket_id` field: the placeholder is replaced by the
decimal rendering of the integer. -/
def pyFormat (template : String) (n : Int) : String :=
  pyReplace template "\x7bticket_id\x7d" (toString n)

/-- Lookup in the prompt argument dictionary (`Dict[str, str]`). -/
def strDictGet (d : List (String × String)) (k : String) : Option String :=
  match d with
  | [] => Option.none
  | (k2, v) :: rest => if k2 = k then some v else strDictGet rest k

/-- `handle_get_prompt`: validates that arguments are present and contain
`ticket_id`, converts `ticket_id` with `int()` before the `try` block, then
builds the prompt for the two known names or raises for unknown names.  The
`except` clause of the source logs and re-raises, so every raised exception
propagates as `Except.error`. -/
def handle_get_prompt (name : String)
    (arguments : Option (List (String × String))) :
    Except PyErr GetPromptResult :=
  let missing : Except PyErr GetPromptResult :=
    Except.error (PyErr.valueError "Missing required argument: ticket_id")
  match arguments with
  | Option.none => missing
  | some args =>
    if args.isEmpty then missing
    else
      match strDictGet args "ticket_id" with
      | Option.none => missing
      | some raw => do
        let ticket_id ← pyInt raw
        if name = "analyze-ticket" then
          Except.ok (GetPromptResult.mk
            ("Analysis prompt for ticket #" ++ toString ticket_id)
            [PromptMessage.mk "user"
              (TextContent.mk "text"
                (pyStrip (pyFormat TICKET_ANALYSIS_TEMPLATE ticket_id)))])
        else if name = "draft-ticket-response" then
          Except.ok (GetPromptResult.mk
            ("Response draft prompt for ticket #" ++ toString ticket_id)
            [PromptMessage.mk "user"
              (TextContent.mk "text"
                (pyStrip (pyFormat COMMENT_DRAFT_TEMPLATE ticket_id)))])
        else
          Except.error (PyErr.valueError ("Unknown prompt: " ++ name))

/-- The request parameters `ZendeskClient.get_tickets` sends to the remote
`tickets.json` endpoint, after stringification, in source order. -/
def getTicketsParams (page per_page : Int) (sort_by sort_order : String) :
    List (String × String) :=
  [("page", toString page), ("per_page", toString per_page),
   ("sort_by", sort_by), ("sort_order", sort_order)]

/-- The nine-field reshaping of one remote ticket record performed inside
`get_tickets`'s loop (`ticket.get(...)` for each field); a non-dictionary
element raises as its `.get` attribute is missing. -/
def reshapeTicket : PyVal → Except PyErr PyVal
  | PyVal.dict d =>
      Except.ok (PyVal.dict
        [("id", dictGetD d "id" PyVal.none),
         ("subject", dictGetD d "subject" PyVal.none),
         ("status", dictGetD d "status" PyVal.none),
         ("priority", dictGetD d "priority" PyVal.none),
         ("description", dictGetD d "description" PyVal.none),
         ("created_at", dictGetD d "created_at" PyVal.none),
         ("updated_at", dictGetD d "updated_at" PyVal.none),
         ("requester_id", dictGetD d "requester_id" PyVal.none),
         ("assignee_id", dictGetD d "assignee_id" PyVal.none)])
  | _ => Except.error (PyErr.typeError "ticket object has no attribute get")

/-- Effectful map over a list, stopping at the first raised exception, as a
Python `for` loop over fallible bodies does. -/
def mapEx (f : PyVal → Except PyErr PyVal) : List PyVal → Except PyErr (List PyVal)
  | [] => Except.ok []
  | x :: xs => do
      let y ← f x
      let ys ← mapEx f xs
      Except.ok (y :: ys)

/-- The `data.get('tickets', [])` extraction followed by iteration: absent
defaults to the empty list, a non-list value fails when iterated as ticket
records. -/
def ticketsOfData (data : List (String × PyVal)) : Except PyErr (List PyVal) :=
  match dictGetD data "tickets" (PyVal.list []) with
  | PyVal.list l => Except.ok l
  | _ => Except.error (PyErr.typeError "response tickets field is not iterable as records")

/-- `ZendeskClient.get_tickets` from the point where the remote JSON response
`data` is available: caps `per_page` at 100, issues the request with the
capped value, reshapes each ticket to nine fields, and assembles the
pagination record.  `next_page`/`previous_page` use Python truthiness of the
corresponding response fields, `has_more` uses an `is not None` test.
Returns the request parameters sent and the result record. -/
def get_tickets (page per_page : Int) (sort_by sort_order : String)
    (data : List (String × PyVal)) :
    Except PyErr (List (String × String) × PyVal) := do
  let cappedPerPage := min per_page 100
  let params := getTicketsParams page cappedPerPage sort_by sort_order
  let tickets_data ← ticketsOfData data
  let ticket_list ← mapEx reshapeTicket tickets_data
  Except.ok (params, PyVal.dict
    [("tickets", PyVal.list ticket_list),
     ("page", PyVal.int page),
     ("per_page", PyVal.int cappedPerPage),
     ("count", PyVal.int ticket_list.length),
     ("sort_by", PyVal.str sort_by),
     ("sort_order", PyVal.str sort_order),
     ("has_more", PyVal.bool (!pyIsNone (dictGetD data "next_page" PyVal.none))),
     ("next_page", if pyTruthy (dictGetD data "next_page" PyVal.none)
                   then PyVal.int (page + 1) else PyVal.none),
     ("previous_page", if pyTruthy (dictGetD data "previous_page" PyVal.none)
                          && decide (page > 1)
                       then PyVal.int (page - 1) else PyVal.none)])

/-- The field loop of `ZendeskClient.update_ticket`: the loaded ticket's
attributes (modelled as an insertion-ordered attribute dictionary) are
mutated by `setattr` for each provided field, except that fields whose value
is `None` are skipped by the `continue`.  The returned dictionary is the
ticket object subsequently sent to `self.client.tickets.update`. -/
def update_ticket_mutate (ticket : List (String × PyVal)) :
    List (String × PyVal) → List (String × PyVal)
  | [] => ticket
  | (k, v) :: rest =>
      if pyIsNone v then update_ticket_mutate ticket rest
      else update_ticket_mutate (dictSet ticket k v) rest

/-- One help-center article as consumed by `get_all_articles`. -/
structure Article where
  id : Int
  title : String
  body : String
  updated_at : String
  html_url : String

/-- One help-center section header as consumed by `get_all_articles`. -/
structure Section where
  id : Int
  name : String
  description : String

/-- The knowledge-base mapping built by `get_all_articles`: section name to
section record. -/
abbrev KB := List (String × PyVal)

/-- The record `get_all_articles` stores under a section's name. -/
def sectionRecord (s : Section) (arts : List Article) : PyVal :=
  PyVal.dict
    [("section_id", PyVal.int s.id),
     ("description", PyVal.str s.description),
     ("articles", PyVal.list (arts.map (fun a =>
        PyVal.dict
          [("id", PyVal.int a.id),
           ("title", PyVal.str a.title),
           ("body", PyVal.str a.body),
           ("updated_at", PyVal.str a.updated_at),
           ("url", PyVal.str a.html_url)])))]

/-- The section loop of `get_all_articles`, threading the dictionary being
built (`kb[section.name] = ...` overwrites duplicates in place). -/
def buildKb (acc : KB) : List (Section × List Article) → KB
  | [] => acc
  | (s, arts) :: rest => buildKb (dictSet acc s.name (sectionRecord s arts)) rest

/-- `ZendeskClient.get_all_articles`: fetch all sections (here: the remote
section/article listing is the input), and build the section-name-keyed
knowledge-base dictionary. -/
def get_all_articles (sections : List (Section × List Article)) : KB :=
  buildKb [] sections

/-- `len(section['articles'])` for one value of the knowledge-base mapping:
raises when the value is not subscriptable, the key is missing, or the entry
has no length. -/
def sectionArticlesLen : PyVal → Except PyErr Nat
  | PyVal.dict d =>
      match dictGet d "articles" with
      | some (PyVal.list l) => Except.ok l.length
      | some _ => Except.error (PyErr.typeError "articles entry has no len")
      | Option.none => Except.error (PyErr.keyError "articles")
  | _ => Except.error (PyErr.typeError "section record is not subscriptable")

/-- `sum(len(section['articles']) for section in kb_data.values())`. -/
def totalArticles : KB → Except PyErr Nat
  | [] => Except.ok 0
  | (_, v) :: rest => do
      let n ← sectionArticlesLen v
      let m ← totalArticles rest
      Except.ok (n + m)

/-- The JSON document `handle_read_resource` builds around the knowledge
base: the payload plus a metadata object with the section count
(`len(kb_data)`) and the article total. -/
def buildKbDoc (kb : KB) : Except PyErr PyVal := do
  let tot ← totalArticles kb
  Except.ok (PyVal.dict
    [("knowledge_base", PyVal.dict kb),
     ("metadata", PyVal.dict
        [("sections", PyVal.int kb.length),
         ("total_articles", PyVal.int tot)])])

/-- Serialization of the knowledge-base document (the `json.dumps` of the
resource handler's success path). -/
def renderKb (kb : KB) : Except PyErr String :=
  (buildKbDoc kb).map jsonDumps

/-- The `ttl` argument of the `ttl_cache` decorator on `get_cached_kb`,
in seconds. -/
def TTL : Nat := 3600

/-- `get_cached_kb` under its `ttl_cache(ttl=3600)` decorator, with the cache
state explicit.  `fetchAt t` is the outcome `zendesk_client.get_all_articles()`
would produce at time `t`, which may raise (the client wraps remote failures
in an exception).  A cached entry fetched at `t0` is served while
`now < t0 + TTL` (cachetools expires an entry once its age reaches the ttl);
otherwise the fetch runs: a successful result is memoized at `now`, while a
raising fetch propagates and memoizes nothing (`ttl_cache` stores only the
values of successful calls, leaving the absent or expired state as it was).
Returns the outcome, the new cache state, and whether the underlying fetch
executed. -/
def get_cached_kb (fetchAt : Nat → Except PyErr KB) (now : Nat)
    (st : Option (Nat × KB)) : Except PyErr KB × Option (Nat × KB) × Bool :=
  match st with
  | some (t0, v) =>
      if now < t0 + TTL then (Except.ok v, some (t0, v), false)
      else
        match fetchAt now with
        | Except.ok kb => (Except.ok kb, some (now, kb), true)
        | Except.error e => (Except.error e, some (t0, v), true)
  | Option.none =>
      match fetchAt now with
      | Except.ok kb => (Except.ok kb, some (now, kb), true)
      | Except.error e => (Except.error e, Option.none, true)

/-- Whether a fallible outcome is a success. -/
def exceptIsOk {α : Type} : Except PyErr α → Bool
  | Except.ok _ => true
  | Except.error _ => false

/-- A protocol URI as the handler observes it.  The MCP layer hands the
handler a pydantic `AnyUrl`, which has normalized the URL per the WHATWG URL
standard before the handler ever sees it; `str(uri)` is the normalized
serialization `scheme://` followed by userinfo (with `@`), host, port (with
`:`) and the path/query/fragment suffix.  The components are modelled
individually so that the normalization invariants can be stated. -/
structure Uri where
  scheme : String
  userinfo : String
  host : String
  port : Option String
  suffix : String

/-- The userinfo part of the serialization: empty, or the userinfo followed
by `@`. -/
def renderUserinfo (s : String) : String := if s = "" then "" else s ++ "@"

/-- The port part of the serialization: empty when the port is absent,
otherwise `:` followed by the port number's digits (normalization drops the
colon of an empty port). -/
def renderPort : Option String → String
  | Option.none => ""
  | some p => ":" ++ p

/-- The remainder of the serialization after `scheme://`. -/
def uriRest (u : Uri) : String :=
  renderUserinfo u.userinfo ++ u.host ++ renderPort u.port ++ u.suffix

/-- `str(uri)` for the modelled URIs. -/
def uriStr (u : Uri) : String := u.scheme ++ "://" ++ uriRest u

/-- Whether a serialized path-query-fragment suffix starts as normalization
leaves it: absent, or introduced by `/`, `?` or `#`. -/
def suffixStartOk (s : String) : Bool :=
  match s.toList with
  | [] => true
  | c :: _ => c == '/' || c == '?' || c == '#'

/-- The invariants WHATWG normalization (as performed by pydantic `AnyUrl`)
guarantees for the serialized components: userinfo percent-encodes any
slash, the host contains neither `:` nor `/`, a present port is a non-empty
digit string, and the path/query/fragment suffix is empty or starts with
`/`, `?` or `#`. -/
def wellFormedUri (u : Uri) : Prop :=
  (∀ c ∈ u.userinfo.toList, c ≠ '/') ∧
  (∀ c ∈ u.host.toList, c ≠ ':' ∧ c ≠ '/') ∧
  (match u.port with
   | Option.none => True
   | some p => p ≠ "" ∧ ∀ c ∈ p.toList, c.isDigit = true) ∧
  suffixStartOk u.suffix = true

/-- The URI of the single advertised resource. -/
def kbUri : Uri := Uri.mk "zendesk" "" "knowledge-base" Option.none ""

/-- One advertised resource entry. -/
structure ResourceDecl where
  uri : Uri
  name : String
  description : String
  mimeType : String

/-- The static resource catalog returned by `handle_list_resources`: exactly
one resource, the knowledge base. -/
def handle_list_resources : List ResourceDecl :=
  [ResourceDecl.mk kbUri "Zendesk Knowledge Base"
    "Access to Zendesk Help Center articles and sections" "application/json"]

/-- `handle_read_resource`: rejects non-`zendesk` schemes, strips
`"zendesk://"` from the URI with Python's occurrence-replacing `str.replace`,
rejects paths other than `knowledge-base`, and otherwise serves the
(possibly cached) knowledge base; a raising fetch is re-raised by the
handler's `except` clause.  Returns the outcome, the new cache state, and
whether the underlying fetch executed. -/
def handle_read_resource (fetchAt : Nat → Except PyErr KB) (now : Nat)
    (st : Option (Nat × KB)) (uri : Uri) :
    Except PyErr String × Option (Nat × KB) × Bool :=
  if uri.scheme ≠ "zendesk" then
    (Except.error (PyErr.valueError ("Unsupported URI scheme: " ++ uri.scheme)), st, false)
  else
    let path := pyReplace (uriStr uri) "zendesk://" ""
    if path ≠ "knowledge-base" then
      (Except.error (PyErr.valueError ("Unknown resource path: " ++ path)), st, false)
    else
      let r := get_cached_kb fetchAt now st
      (Except.bind r.1 renderKb, r.2.1, r.2.2)

/-- A sequence of reads of the `zendesk://knowledge-base` resource at the
given times, threading the cache state; records each read's time, outcome
and whether it executed the underlying fetch. -/
def readKbTrace (fetchAt : Nat → Except PyErr KB) (st : Option (Nat × KB)) :
    List Nat → List (Nat × Except PyErr String × Bool)
  | [] => []
  | t :: ts =>
      let r := handle_read_resource fetchAt t st kbUri
      (t, r.1, r.2.2) :: readKbTrace fetchAt r.2.1 ts

/-- The times at which a trace of resource reads executed the underlying
fetch (successfully or not). -/
def fetchTimes (fetchAt : Nat → Except PyErr KB) (st : Option (Nat × KB))
    (ts : List Nat) : List Nat :=
  ((readKbTrace fetchAt st ts).filter (fun e => e.2.2)).map (fun e => e.1)

/-- The times at which a trace of resource reads executed the underlying
fetch and the fetch succeeded; only these reads refresh the memoized
snapshot. -/
def successFetchTimes (fetchAt : Nat → Except PyErr KB) (st : Option (Nat × KB))
    (ts : List Nat) : List Nat :=
  ((readKbTrace fetchAt st ts).filter
      (fun e => e.2.2 && exceptIsOk (fetchAt e.1))).map (fun e => e.1)

/-- The in-process server state: the single memoized knowledge-base cache
entry of `get_cached_kb` (nothing else in `server.py` is mutable in-process
state).  Tool dispatch neither reads nor writes it, which the next
definition makes explicit. -/
abbrev ServerState := Option (Nat × KB)

/-- A tool invocation as a transition on the in-process server state: the
source's `handle_call_tool` touches no server state, so the step returns the
dispatcher's output and passes the state through. -/
def callToolStep (z : ZendeskOps) (name : String)
    (arguments : Option (List (String × PyVal)))
    (st : ServerState) : List TextContent × ServerState :=
  (handle_call_tool z name arguments, st)

/-- An adapter whose every method raises `ValueError(msg)`: used to observe
that a dispatch branch reached the adapter (the probe message surfaces in
the dispatcher's output exactly when delegation happened). -/
def zErrProbe (msg : String) : ZendeskOps :=
  ZendeskOps.mk
    (fun _ => Except.error (PyErr.valueError msg))
    (fun _ => Except.error (PyErr.valueError msg))
    (fun _ _ _ _ => Except.error (PyErr.valueError msg))
    (fun _ => Except.error (PyErr.valueError msg))
    (fun _ _ _ => Except.error (PyErr.valueError msg))
    (fun _ _ => Except.error (PyErr.valueError msg))
    (fun _ => Except.error (PyErr.valueError msg))
    (fun _ => Except.error (PyErr.valueError msg))
    (fun _ _ _ _ _ => Except.error (PyErr.valueError msg))
    (fun _ _ => Except.error (PyErr.valueError msg))

/-- An adapter whose every method succeeds with an empty payload. -/
def zOkEmpty : ZendeskOps :=
  ZendeskOps.mk
    (fun _ => Except.ok PyVal.none)
    (fun _ => Except.ok PyVal.none)
    (fun _ _ _ _ => Except.ok PyVal.none)
    (fun _ => Except.ok PyVal.none)
    (fun _ _ _ => Except.ok PyVal.none)
    (fun _ _ => Except.ok PyVal.none)
    (fun _ => Except.ok PyVal.none)
    (fun _ => Except.ok [])
    (fun _ _ _ _ _ => Except.ok PyVal.none)
    (fun _ _ => Except.ok [])

/-- Probe adapter A (distinct message from probe B). -/
def zA : ZendeskOps := zErrProbe "probe A"

/-- Probe adapter B (distinct message from probe A). -/
def zB : ZendeskOps := zErrProbe "probe B"

/-- Field lookup on a result record (a dictionary value). -/
def resLookup : PyVal → String → Option PyVal
  | PyVal.dict d, k => dictGet d k
  | _, _ => Option.none

/-- The tickets list carried by a `get_tickets` result record. -/
def resTickets (res : PyVal) : List PyVal :=
  match resLookup res "tickets" with
  | some (PyVal.list l) => l
  | _ => []

/-- The key list of a dictionary value, in order. -/
def pyKeys : PyVal → Option (List String)
  | PyVal.dict d => some (d.map Prod.fst)
  | _ => Option.none

/-- Whether a knowledge-base section record carries an `articles` list. -/
def hasArticlesList : PyVal → Bool
  | PyVal.dict d =>
      match dictGet d "articles" with
      | some (PyVal.list _) => true
      | _ => false
  | _ => false

/-- The length of a section record's `articles` list (zero when absent):
the reading the specification uses for the article total. -/
def articlesCount : PyVal → Nat
  | PyVal.dict d =>
      match dictGet d "articles" with
      | some (PyVal.list l) => l.length
      | _ => 0
  | _ => 0

/-- A one-section, one-article help-center listing used to instantiate the
knowledge-base theorems. -/
def kbSample : List (Section × List Article) :=
  [(Section.mk 1 "General" "General questions",
    [Article.mk 10 "Title" "Body" "2024-01-01" "https://example.zendesk.com/a/10"])]

theorem dictGet_dictSet_ne (t : List (String × PyVal)) (k2 k : String) (v : PyVal)
    (h : k2 ≠ k) : dictGet (dictSet t k2 v) k = dictGet t k := by
  induction t with
  | nil => simp [dictSet, dictGet, h]
  | cons p rest ih =>
      obtain ⟨a, b⟩ := p
      by_cases ha : a = k2
      · subst ha
        simp [dictSet, dictGet, h]
      · simp [dictSet, dictGet, ha, ih]

theorem update_ticket_mutate_filter (fs : List (String × PyVal)) :
    ∀ t, update_ticket_mutate t fs
      = update_ticket_mutate t (fs.filter (fun kv => !pyIsNone kv.2)) := by
  induction fs with
  | nil => intro t; rfl
  | cons p rest ih =>
      intro t
      obtain ⟨k, v⟩ := p
      by_cases hv : pyIsNone v = true
      · simp [update_ticket_mutate, hv, List.filter_cons, ih]
      · simp [update_ticket_mutate, hv, List.filter_cons, ih]

theorem update_ticket_mutate_frame (k : String) (fs : List (String × PyVal)) :
    ∀ t, (∀ v, (k, v) ∈ fs → pyIsNone v = true) →
      dictGet (update_ticket_mutate t fs) k = dictGet t k := by
  induction fs with
  | nil => intro t _; rfl
  | cons p rest ih =>
      intro t h
      obtain ⟨k2, v2⟩ := p
      by_cases hv : pyIsNone v2 = true
      · rw [update_ticket_mutate, if_pos hv]
        exact ih t (fun v hm => h v (List.mem_cons_of_mem _ hm))
      · have hk2 : k2 ≠ k := by
          intro he
          subst he
          exact hv (h v2 (List.mem_cons_self _ _))
        rw [update_ticket_mutate, if_neg hv]
        rw [ih (dictSet t k2 v2) (fun v hm => h v (List.mem_cons_of_mem _ hm))]
        exact dictGet_dictSet_ne t k2 k v2 hk2

theorem mapEx_ok_forall {f : PyVal → Except PyErr PyVal} {P : PyVal → Prop}
    (hf : ∀ x y, f x = Except.ok y → P y) :
    ∀ (l : List PyVal) (ys : List PyVal),
      mapEx f l = Except.ok ys → ∀ y ∈ ys, P y := by
  intro l
  induction l with
  | nil =>
      intro ys h y hy
      injection h with h2
      rw [← h2] at hy
      cases hy
  | cons x xs ih =>
      intro ys h y hy
      rw [mapEx] at h
      cases hx : f x with
      | error e => rw [hx] at h; cases h
      | ok y0 =>
          rw [hx] at h
          cases hrest : mapEx f xs with
          | error e => rw [hrest] at h; cases h
          | ok ys0 =>
              rw [hrest] at h
              injection h with h2
              rw [← h2] at hy
              cases hy with
              | head => exact hf _ _ hx
              | tail _ hmem => exact ih _ hrest _ hmem

theorem reshapeTicket_keys (x y : PyVal) (h : reshapeTicket x = Except.ok y) :
    pyKeys y = some ["id", "subject", "status", "priority", "description",
      "created_at", "updated_at", "requester_id", "assignee_id"] := by
  cases x with
  | dict d => cases h; rfl
  | none => cases h
  | bool b => cases h
  | int n => cases h
  | str s => cases h
  | list l => cases h

theorem sectionArticlesLen_of_has (v : PyVal) (h : hasArticlesList v = true) :
    sectionArticlesLen v = Except.ok (articlesCount v) := by
  cases v with
  | dict d =>
      simp only [hasArticlesList] at h
      simp only [sectionArticlesLen, articlesCount]
      cases hg : dictGet d "articles" with
      | none => rw [hg] at h; cases h
      | some w =>
          rw [hg] at h
          cases w with
          | list l => rfl
          | none => cases h
          | bool b => cases h
          | int n => cases h
          | str s => cases h
          | dict d2 => cases h
  | none => cases h
  | bool b => cases h
  | int n => cases h
  | str s => cases h
  | list l => cases h

theorem mem_dictSet (d : List (String × PyVal)) (k : String) (v : PyVal) :
    ∀ p ∈ dictSet d k v, p ∈ d ∨ p = (k, v) := by
  induction d with
  | nil =>
      intro p hp
      simp [dictSet] at hp
      right; exact hp
  | cons q rest ih =>
      intro p hp
      obtain ⟨a, b⟩ := q
      by_cases ha : a = k
      · rw [dictSet, if_pos ha] at hp
        cases hp with
        | head => right; rw [ha]
        | tail _ hm => left; exact List.mem_cons_of_mem _ hm
      · rw [dictSet, if_neg ha] at hp
        cases hp with
        | head => left; exact List.mem_cons_self _ _
        | tail _ hm =>
            cases ih p hm with
            | inl h => left; exact List.mem_cons_of_mem _ h
            | inr h => right; exact h

theorem buildKb_hasArticles (secs : List (Section × List Article)) :
    ∀ (acc : KB), (∀ p ∈ acc, hasArticlesList p.2 = true) →
      ∀ p ∈ buildKb acc secs, hasArticlesList p.2 = true := by
  induction secs with
  | nil => intro acc hacc p hp; exact hacc p hp
  | cons sa rest ih =>
      intro acc hacc p hp
      obtain ⟨s, arts⟩ := sa
      refine ih (dictSet acc s.name (sectionRecord s arts)) ?_ p hp
      intro q hq
      cases mem_dictSet acc s.name (sectionRecord s arts) q hq with
      | inl h => exact hacc q h
      | inr h => rw [h]; rfl

theorem totalArticles_ok (kb : KB)
    (h : ∀ p ∈ kb, hasArticlesList p.2 = true) :
    totalArticles kb = Except.ok ((kb.map (fun p => articlesCount p.2)).sum) := by
  induction kb with
  | nil => rfl
  | cons p rest ih =>
      obtain ⟨k, v⟩ := p
      have hv : hasArticlesList v = true := h (k, v) (List.mem_cons_self _ _)
      have hrest := ih (fun q hq => h q (List.mem_cons_of_mem _ hq))
      simp only [totalArticles, sectionArticlesLen_of_has v hv, hrest,
        Except.bind, List.map_cons, List.sum_cons]
      rfl

/-- C1: for every tool name and argument dictionary, when the dispatched
operation (the `try` body of `handle_call_tool`, which delegates to the API
adapter) raises any exception, the dispatcher does not propagate it but
returns a one-element list whose text is `"Error: "` followed by the
exception's message; and a result is returned unwrapped (hence non-error)
exactly when the dispatched operation succeeds. -/
theorem handle_call_tool_error_wrapping (z : ZendeskOps) (name : String)
    (arguments : Option (List (String × PyVal))) :
    (∀ e, callToolBody z name arguments = Except.error e →
      handle_call_tool z name arguments
        = [TextContent.mk "text" ("Error: " ++ errStr e)]) ∧
    (∀ r, callToolBody z name arguments = Except.ok r →
      handle_call_tool z name arguments = r) := by
  constructor
  · intro e h
    simp [handle_call_tool, h, errContent]
  · intro r h
    simp [handle_call_tool, h]

/-- Witness for C1: a failing adapter call surfaces as an error text, and a
succeeding one is returned as produced. -/
theorem handle_call_tool_error_wrapping_witness :
    handle_call_tool (zErrProbe "boom") "get_ticket" (some [("ticket_id", PyVal.int 1)])
      = [TextContent.mk "text" ("Error: " ++ errStr (PyErr.valueError "boom"))] ∧
    handle_call_tool zOkEmpty "get_tickets" Option.none
      = [TextContent.mk "text" (jsonDumps PyVal.none)] :=
  ⟨(handle_call_tool_error_wrapping (zErrProbe "boom") "get_ticket"
      (some [("ticket_id", PyVal.int 1)])).1 (PyErr.valueError "boom") (by rfl),
   (handle_call_tool_error_wrapping zOkEmpty "get_tickets" Option.none).2
      [TextContent.mk "text" (jsonDumps PyVal.none)] (by rfl)⟩

/-- C4: tool dispatch is stateless with respect to the in-process server
state: the state after the call equals the state before it, the output does
not depend on the state (in particular not on the knowledge-base cache), and
re-invoking the same tool with the same arguments against the same adapter
responses returns identical content. -/
theorem call_tool_stateless (z : ZendeskOps) (name : String)
    (arguments : Option (List (String × PyVal))) (st st2 : ServerState) :
    (callToolStep z name arguments st).2 = st ∧
    (callToolStep z name arguments st).1 = (callToolStep z name arguments st2).1 ∧
    (callToolStep z name arguments ((callToolStep z name arguments st).2)).1
      = (callToolStep z name arguments st).1 :=
  ⟨rfl, rfl, rfl⟩

/-- C9: the field loop of `ZendeskClient.update_ticket` skips every field
whose value is `None`: the mutation equals the mutation by the non-`None`
fields alone, and an attribute for which only `None` values were provided is
left unchanged on the ticket that is sent. -/
theorem update_ticket_skips_none (t fs : List (String × PyVal)) :
    update_ticket_mutate t fs
      = update_ticket_mutate t (fs.filter (fun kv => !pyIsNone kv.2)) ∧
    (∀ k, (∀ v, (k, v) ∈ fs → pyIsNone v = true) →
      dictGet (update_ticket_mutate t fs) k = dictGet t k) :=
  ⟨update_ticket_mutate_filter fs t,
   fun k h => update_ticket_mutate_frame k fs t h⟩

/-- Witness for C9: updating with `status=None, priority="high"` equals
updating with `priority="high"` alone, and the `status` attribute keeps its
loaded value. -/
theorem update_ticket_skips_none_witness :
    update_ticket_mutate [("status", PyVal.str "open")]
        [("status", PyVal.none), ("priority", PyVal.str "high")]
      = update_ticket_mutate [("status", PyVal.str "open")]
          (List.filter (fun kv => !pyIsNone kv.2)
            [("status", PyVal.none), ("priority", PyVal.str "high")]) ∧
    dictGet (update_ticket_mutate [("status", PyVal.str "open")]
        [("status", PyVal.none)]) "status"
      = dictGet [("status", PyVal.str "open")] "status" :=
  ⟨(update_ticket_skips_none [("status", PyVal.str "open")]
      [("status", PyVal.none), ("priority", PyVal.str "high")]).1,
   (update_ticket_skips_none [("status", PyVal.str "open")]
      [("status", PyVal.none)]).2 "status"
     (by
       intro v hv
       cases hv with
       | head => rfl
       | tail _ hm => cases hm)⟩

/-- C10: when the prompt arguments carry a `ticket_id` that `int()` cannot
parse, the conversion raises before the handler's `try` block is entered,
and the exception propagates to the protocol layer uncaught: the handler
yields exactly the parse error, not a prompt result and not the handler's
own missing-argument error. -/
theorem get_prompt_unparseable_propagates (name : String)
    (args : List (String × String)) (s : String) (e : PyErr)
    (hlook : strDictGet args "ticket_id" = some s)
    (hparse : pyInt s = Except.error e) :
    handle_get_prompt name (some args) = Except.error e := by
  cases args with
  | nil => cases hlook
  | cons a as =>
      simp only [handle_get_prompt, List.isEmpty, hlook]
      rw [hparse]
      rfl

/-- Witness for C10: `ticket_id="abc"` makes the handler yield the `int()`
parse error even for a known prompt name. -/
theorem get_prompt_unparseable_propagates_witness :
    handle_get_prompt "analyze-ticket" (some [("ticket_id", "abc")])
      = Except.error (PyErr.valueError
          ("invalid literal for int() with base 10: " ++ apos ++ "abc" ++ apos)) :=
  get_prompt_unparseable_propagates "analyze-ticket" [("ticket_id", "abc")] "abc"
    (PyErr.valueError ("invalid literal for int() with base 10: " ++ apos ++ "abc" ++ apos))
    (by rfl) (by rfl)

theorem except_bind_ok {α β : Type} (a : α) (f : α → Except PyErr β) :
    (do let x ← Except.ok a; f x) = f a := rfl

/-- C8: `handle_get_prompt` raises `ValueError` when arguments are absent or
lack `ticket_id`, raises for any prompt name other than the two known ones,
and for those two names with an integer-valued `ticket_id` returns exactly
one message with role `user` whose text is the corresponding canned template
with the ticket ID substituted and surrounding whitespace stripped. -/
theorem handle_get_prompt_spec :
    (∀ name, handle_get_prompt name Option.none
      = Except.error (PyErr.valueError "Missing required argument: ticket_id")) ∧
    (∀ name args, strDictGet args "ticket_id" = Option.none →
      handle_get_prompt name (some args)
        = Except.error (PyErr.valueError "Missing required argument: ticket_id")) ∧
    (∀ name args raw n, strDictGet args "ticket_id" = some raw →
      pyInt raw = Except.ok n →
      name ≠ "analyze-ticket" → name ≠ "draft-ticket-response" →
      handle_get_prompt name (some args)
        = Except.error (PyErr.valueError ("Unknown prompt: " ++ name))) ∧
    (∀ args raw n, strDictGet args "ticket_id" = some raw →
      pyInt raw = Except.ok n →
      handle_get_prompt "analyze-ticket" (some args)
        = Except.ok (GetPromptResult.mk
            ("Analysis prompt for ticket #" ++ toString n)
            [PromptMessage.mk "user" (TextContent.mk "text"
              (pyStrip (pyFormat TICKET_ANALYSIS_TEMPLATE n)))])) ∧
    (∀ args raw n, strDictGet args "ticket_id" = some raw →
      pyInt raw = Except.ok n →
      handle_get_prompt "draft-ticket-response" (some args)
        = Except.ok (GetPromptResult.mk
            ("Response draft prompt for ticket #" ++ toString n)
            [PromptMessage.mk "user" (TextContent.mk "text"
              (pyStrip (pyFormat COMMENT_DRAFT_TEMPLATE n)))])) := by
  refine ⟨fun name => rfl, ?_, ?_, ?_, ?_⟩
  · intro name args hlook
    cases args with
    | nil => rfl
    | cons a as =>
        simp only [handle_get_prompt, List.isEmpty]
        rw [hlook]
        rfl
  · intro name args raw n hlook hp h3 h4
    cases args with
    | nil => cases hlook
    | cons a as =>
        simp only [handle_get_prompt, List.isEmpty, hlook]
        rw [hp, except_bind_ok]
        rw [if_neg h3, if_neg h4]
        rfl
  · intro args raw n hlook hp
    cases args with
    | nil => cases hlook
    | cons a as =>
        simp only [handle_get_prompt, List.isEmpty, hlook]
        rw [hp, except_bind_ok]
        simp
  · intro args raw n hlook hp
    cases args with
    | nil => cases hlook
    | cons a as =>
        simp only [handle_get_prompt, List.isEmpty, hlook]
        rw [hp, except_bind_ok]
        simp

/-- Witness for C8: concrete instances of each clause, with `ticket_id=7`. -/
theorem handle_get_prompt_spec_witness :
    handle_get_prompt "analyze-ticket" Option.none
      = Except.error (PyErr.valueError "Missing required argument: ticket_id") ∧
    handle_get_prompt "analyze-ticket" (some [("other", "1")])
      = Except.error (PyErr.valueError "Missing required argument: ticket_id") ∧
    handle_get_prompt "bogus" (some [("ticket_id", "7")])
      = Except.error (PyErr.valueError ("Unknown prompt: " ++ "bogus")) ∧
    handle_get_prompt "analyze-ticket" (some [("ticket_id", "7")])
      = Except.ok (GetPromptResult.mk
          ("Analysis prompt for ticket #" ++ toString (7 : Int))
          [PromptMessage.mk "user" (TextContent.mk "text"
            (pyStrip (pyFormat TICKET_ANALYSIS_TEMPLATE 7)))]) ∧
    handle_get_prompt "draft-ticket-response" (some [("ticket_id", "7")])
      = Except.ok (GetPromptResult.mk
          ("Response draft prompt for ticket #" ++ toString (7 : Int))
          [PromptMessage.mk "user" (TextContent.mk "text"
            (pyStrip (pyFormat COMMENT_DRAFT_TEMPLATE 7)))]) :=
  ⟨handle_get_prompt_spec.1 "analyze-ticket",
   handle_get_prompt_spec.2.1 "analyze-ticket" [("other", "1")] (by rfl),
   handle_get_prompt_spec.2.2.1 "bogus" [("ticket_id", "7")] "7" 7
     (by rfl) (by rfl) (by decide) (by decide),
   handle_get_prompt_spec.2.2.2.1 [("ticket_id", "7")] "7" 7 (by rfl) (by rfl),
   handle_get_prompt_spec.2.2.2.2 [("ticket_id", "7")] "7" 7 (by rfl) (by rfl)⟩

/-- C7: for every successful knowledge-base read, the document's metadata is
consistent with its payload: every section record produced by
`get_all_articles` carries an `articles` list, the metadata computation
therefore raises nothing, `metadata.sections` is the number of sections of
the mapping and `metadata.total_articles` is the sum of the lengths of the
sections' article lists. -/
theorem kb_metadata_consistent (secs : List (Section × List Article)) :
    (∀ p ∈ get_all_articles secs, hasArticlesList p.2 = true) ∧
    buildKbDoc (get_all_articles secs) = Except.ok (PyVal.dict
      [("knowledge_base", PyVal.dict (get_all_articles secs)),
       ("metadata", PyVal.dict
          [("sections", PyVal.int (get_all_articles secs).length),
           ("total_articles", PyVal.int
              (((get_all_articles secs).map (fun p => articlesCount p.2)).sum))])]) := by
  have hall : ∀ p ∈ get_all_articles secs, hasArticlesList p.2 = true :=
    buildKb_hasArticles secs [] (by intro p hp; cases hp)
  refine ⟨hall, ?_⟩
  rw [buildKbDoc, totalArticles_ok _ hall]
  rfl

/-- Witness for C7: a one-section, one-article listing yields a record with
an articles list and a metadata-consistent document. -/
theorem kb_metadata_consistent_witness :
    hasArticlesList (sectionRecord (Section.mk 1 "General" "General questions")
      [Article.mk 10 "Title" "Body" "2024-01-01" "https://example.zendesk.com/a/10"]) = true ∧
    buildKbDoc (get_all_articles kbSample) = Except.ok (PyVal.dict
      [("knowledge_base", PyVal.dict (get_all_articles kbSample)),
       ("metadata", PyVal.dict
          [("sections", PyVal.int (get_all_articles kbSample).length),
           ("total_articles", PyVal.int
              (((get_all_articles kbSample).map (fun p => articlesCount p.2)).sum))])]) :=
  ⟨(kb_metadata_consistent kbSample).1
      ("General", sectionRecord (Section.mk 1 "General" "General questions")
        [Article.mk 10 "Title" "Body" "2024-01-01" "https://example.zendesk.com/a/10"])
      (List.Mem.head _),
   (kb_metadata_consistent kbSample).2⟩

/-- Counterexample for C2: `create_ticket` declares `subject` and
`description` as required, yet an invocation whose non-empty arguments lack
both is not rejected before delegation — the adapter is invoked and its
outcome determines the dispatcher's result (two adapters that differ only in
their raised message yield different results). -/
theorem create_ticket_missing_required_forwarded :
    toolRequired "create_ticket" = some ["subject", "description"] ∧
    dictGet [("priority", PyVal.str "low")] "subject" = Option.none ∧
    dictGet [("priority", PyVal.str "low")] "description" = Option.none ∧
    handle_call_tool zA "create_ticket" (some [("priority", PyVal.str "low")])
      = [TextContent.mk "text" ("Error: " ++ "probe A")] ∧
    handle_call_tool zB "create_ticket" (some [("priority", PyVal.str "low")])
      = [TextContent.mk "text" ("Error: " ++ "probe B")] ∧
    handle_call_tool zA "create_ticket" (some [("priority", PyVal.str "low")])
      ≠ handle_call_tool zB "create_ticket" (some [("priority", PyVal.str "low")]) :=
  ⟨by rfl, by rfl, by rfl, by rfl, by rfl, by decide⟩

/-- C2 amended: the dispatcher rejects a call only when the arguments
dictionary is absent or empty, or when a required argument is read by
subscript (then the `KeyError` becomes an error result without reaching the
adapter); `create_ticket` with non-empty arguments is always forwarded to
the adapter, with `None` standing in for any absent field, including the
required `subject` and `description`. -/
theorem required_args_enforcement_amended (z : ZendeskOps)
    (args : List (String × PyVal)) :
    handle_call_tool z "get_ticket" Option.none
      = [errContent (PyErr.valueError "Missing arguments")] ∧
    (args ≠ [] → dictGet args "ticket_id" = Option.none →
      handle_call_tool z "get_ticket" (some args)
        = [errContent (PyErr.keyError "ticket_id")]) ∧
    (args ≠ [] →
      handle_call_tool z "create_ticket" (some args)
        = match z.create_ticket (CreateTicketArgs.mk
            (dictGetD args "subject" PyVal.none) (dictGetD args "description" PyVal.none)
            (dictGetD args "requester_id" PyVal.none) (dictGetD args "assignee_id" PyVal.none)
            (dictGetD args "priority" PyVal.none) (dictGetD args "type" PyVal.none)
            (dictGetD args "tags" PyVal.none) (dictGetD args "custom_fields" PyVal.none)) with
          | Except.ok created => [TextContent.mk "text" (jsonDumps (PyVal.dict
              [("message", PyVal.str "Ticket created successfully"), ("ticket", created)]))]
          | Except.error e => [errContent e]) := by
  refine ⟨rfl, ?_, ?_⟩
  · intro hne hget
    cases args with
    | nil => exact absurd rfl hne
    | cons p rest =>
        have hidx : dictIndex (p :: rest) "ticket_id"
            = Except.error (PyErr.keyError "ticket_id") := by
          rw [dictIndex, hget]
        simp only [handle_call_tool, callToolBody, requireArgs]
        rw [except_bind_ok, hidx]
        rfl
  · intro hne
    cases args with
    | nil => exact absurd rfl hne
    | cons p rest =>
        have hbody : callToolBody z "create_ticket" (some (p :: rest))
            = Except.bind (z.create_ticket (CreateTicketArgs.mk
                (dictGetD (p :: rest) "subject" PyVal.none)
                (dictGetD (p :: rest) "description" PyVal.none)
                (dictGetD (p :: rest) "requester_id" PyVal.none)
                (dictGetD (p :: rest) "assignee_id" PyVal.none)
                (dictGetD (p :: rest) "priority" PyVal.none)
                (dictGetD (p :: rest) "type" PyVal.none)
                (dictGetD (p :: rest) "tags" PyVal.none)
                (dictGetD (p :: rest) "custom_fields" PyVal.none)))
              (fun created => Except.ok [TextContent.mk "text" (jsonDumps (PyVal.dict
                [("message", PyVal.str "Ticket created successfully"),
                 ("ticket", created)]))]) := rfl
        rw [handle_call_tool, hbody]
        cases hz : z.create_ticket (CreateTicketArgs.mk
            (dictGetD (p :: rest) "subject" PyVal.none)
            (dictGetD (p :: rest) "description" PyVal.none)
            (dictGetD (p :: rest) "requester_id" PyVal.none)
            (dictGetD (p :: rest) "assignee_id" PyVal.none)
            (dictGetD (p :: rest) "priority" PyVal.none)
            (dictGetD (p :: rest) "type" PyVal.none)
            (dictGetD (p :: rest) "tags" PyVal.none)
            (dictGetD (p :: rest) "custom_fields" PyVal.none)) with
        | ok created => rfl
        | error e => rfl

/-- Witness for C2's amended statement: a subscript-read required argument
is rejected as a `KeyError` error result, while `create_ticket` without its
required fields reaches the adapter and surfaces the probe error. -/
theorem required_args_enforcement_amended_witness :
    handle_call_tool zA "get_ticket" (some [("priority", PyVal.str "low")])
      = [errContent (PyErr.keyError "ticket_id")] ∧
    handle_call_tool zA "create_ticket" (some [("priority", PyVal.str "low")])
      = [errContent (PyErr.valueError "probe A")] :=
  ⟨(required_args_enforcement_amended zA [("priority", PyVal.str "low")]).2.1
      (List.cons_ne_nil _ _) (by rfl),
   (required_args_enforcement_amended zA [("priority", PyVal.str "low")]).2.2
      (List.cons_ne_nil _ _)⟩

/-- Counterexample for C5: a remote response whose `next_page` field is the
empty string is non-null (the code's own `has_more` is-not-None test yields
`true`), yet the returned `next_page` is null rather than `page + 1`,
because the code tests Python truthiness, not non-nullness. -/
theorem get_tickets_next_page_truthiness :
    get_tickets 1 25 "created_at" "desc" [("next_page", PyVal.str "")]
      = Except.ok (getTicketsParams 1 25 "created_at" "desc", PyVal.dict
        [("tickets", PyVal.list []), ("page", PyVal.int 1), ("per_page", PyVal.int 25),
         ("count", PyVal.int 0), ("sort_by", PyVal.str "created_at"),
         ("sort_order", PyVal.str "desc"), ("has_more", PyVal.bool true),
         ("next_page", PyVal.none), ("previous_page", PyVal.none)]) ∧
    pyIsNone (PyVal.str "") = false :=
  ⟨by rfl, by rfl⟩

/-- C5 amended: for every successful `get_tickets` call, `per_page` of the
result and of the issued request equal `min(per_page, 100)`, `count` is the
length of the tickets list, every ticket entry has exactly the nine declared
fields, and `next_page`/`previous_page` are `page + 1`/`page - 1` exactly
when the corresponding response field is truthy in Python's sense (and, for
`previous_page`, `page > 1`), and null otherwise. -/
theorem get_tickets_reshape_amended (page per_page : Int)
    (sort_by sort_order : String) (data : List (String × PyVal))
    (req : List (String × String)) (res : PyVal)
    (h : get_tickets page per_page sort_by sort_order data = Except.ok (req, res)) :
    resLookup res "per_page" = some (PyVal.int (min per_page 100)) ∧
    strDictGet req "per_page" = some (toString (min per_page 100)) ∧
    resLookup res "count" = some (PyVal.int (resTickets res).length) ∧
    (∀ t ∈ resTickets res, pyKeys t = some ["id", "subject", "status", "priority",
      "description", "created_at", "updated_at", "requester_id", "assignee_id"]) ∧
    resLookup res "next_page"
      = some (if pyTruthy (dictGetD data "next_page" PyVal.none)
              then PyVal.int (page + 1) else PyVal.none) ∧
    resLookup res "previous_page"
      = some (if pyTruthy (dictGetD data "previous_page" PyVal.none)
                 && decide (page > 1)
              then PyVal.int (page - 1) else PyVal.none) := by
  rw [get_tickets] at h
  cases htd : ticketsOfData data with
  | error e =>
      rw [htd] at h
      exact absurd h (by intro hh; cases hh)
  | ok td =>
      rw [htd] at h
      rw [except_bind_ok] at h
      cases hmp : mapEx reshapeTicket td with
      | error e =>
          rw [hmp] at h
          exact absurd h (by intro hh; cases hh)
      | ok tl =>
          rw [hmp] at h
          rw [except_bind_ok] at h
          injection h with h2
          rw [Prod.mk.injEq] at h2
          obtain ⟨hreq, hres⟩ := h2
          subst hreq
          subst hres
          refine ⟨?_, ?_, ?_, ?_, ?_, ?_⟩
          · simp [resLookup, dictGet]
          · simp [getTicketsParams, strDictGet]
          · simp [resLookup, resTickets, dictGet]
          · intro t ht
            have hmem : t ∈ tl := by
              simpa [resTickets, resLookup, dictGet] using ht
            exact mapEx_ok_forall (fun x y hy => reshapeTicket_keys x y hy)
              td tl hmp t hmem
          · simp [resLookup, dictGet]
          · simp [resLookup, dictGet]

/-- Witness for C5's amended statement: an empty remote response yields a
record with `per_page = 25`, an empty tickets list, count 0, and null
pagination links. -/
theorem get_tickets_reshape_amended_witness :
    resLookup (PyVal.dict
      [("tickets", PyVal.list []), ("page", PyVal.int 1), ("per_page", PyVal.int 25),
       ("count", PyVal.int 0), ("sort_by", PyVal.str "created_at"),
       ("sort_order", PyVal.str "desc"), ("has_more", PyVal.bool false),
       ("next_page", PyVal.none), ("previous_page", PyVal.none)]) "per_page"
      = some (PyVal.int (min 25 100)) ∧
    strDictGet (getTicketsParams 1 25 "created_at" "desc") "per_page"
      = some (toString (min (25 : Int) 100)) ∧
    resLookup (PyVal.dict
      [("tickets", PyVal.list []), ("page", PyVal.int 1), ("per_page", PyVal.int 25),
       ("count", PyVal.int 0), ("sort_by", PyVal.str "created_at"),
       ("sort_order", PyVal.str "desc"), ("has_more", PyVal.bool false),
       ("next_page", PyVal.none), ("previous_page", PyVal.none)]) "next_page"
      = some (if pyTruthy (dictGetD [] "next_page" PyVal.none)
              then PyVal.int 2 else PyVal.none) := by
  have h := get_tickets_reshape_amended 1 25 "created_at" "desc" []
    (getTicketsParams 1 25 "created_at" "desc")
    (PyVal.dict
      [("tickets", PyVal.list []), ("page", PyVal.int 1), ("per_page", PyVal.int 25),
       ("count", PyVal.int 0), ("sort_by", PyVal.str "created_at"),
       ("sort_order", PyVal.str "desc"), ("has_more", PyVal.bool false),
       ("next_page", PyVal.none), ("previous_page", PyVal.none)]) (by rfl)
  exact ⟨h.1, h.2.1, h.2.2.2.2.1⟩

theorem read_kb_step (f : Nat → Except PyErr KB) (t : Nat)
    (st : Option (Nat × KB)) :
    handle_read_resource f t st kbUri
      = (Except.bind (get_cached_kb f t st).1 renderKb,
         (get_cached_kb f t st).2.1, (get_cached_kb f t st).2.2) := rfl

theorem successFetchTimes_nil (f : Nat → Except PyErr KB)
    (st : Option (Nat × KB)) : successFetchTimes f st [] = [] := rfl

theorem successFetchTimes_cons_hit (f : Nat → Except PyErr KB) (t t0 : Nat)
    (v : KB) (ts : List Nat) (h : t < t0 + TTL) :
    successFetchTimes f (some (t0, v)) (t :: ts)
      = successFetchTimes f (some (t0, v)) ts := by
  simp only [successFetchTimes, readKbTrace, read_kb_step, get_cached_kb,
    if_pos h, List.filter_cons]
  rfl

theorem successFetchTimes_cons_miss_ok (f : Nat → Except PyErr KB) (t t0 : Nat)
    (v kb : KB) (ts : List Nat) (h : ¬ t < t0 + TTL)
    (hf : f t = Except.ok kb) :
    successFetchTimes f (some (t0, v)) (t :: ts)
      = t :: successFetchTimes f (some (t, kb)) ts := by
  simp only [successFetchTimes, readKbTrace, read_kb_step, get_cached_kb,
    if_neg h, hf, List.filter_cons]
  simp [exceptIsOk]

theorem successFetchTimes_cons_miss_err (f : Nat → Except PyErr KB) (t t0 : Nat)
    (v : KB) (e : PyErr) (ts : List Nat) (h : ¬ t < t0 + TTL)
    (hf : f t = Except.error e) :
    successFetchTimes f (some (t0, v)) (t :: ts)
      = successFetchTimes f (some (t0, v)) ts := by
  simp only [successFetchTimes, readKbTrace, read_kb_step, get_cached_kb,
    if_neg h, hf, List.filter_cons]
  simp [exceptIsOk]

theorem successFetchTimes_cons_none_ok (f : Nat → Except PyErr KB) (t : Nat)
    (kb : KB) (ts : List Nat) (hf : f t = Except.ok kb) :
    successFetchTimes f Option.none (t :: ts)
      = t :: successFetchTimes f (some (t, kb)) ts := by
  simp only [successFetchTimes, readKbTrace, read_kb_step, get_cached_kb,
    hf, List.filter_cons]
  simp [exceptIsOk]

theorem successFetchTimes_cons_none_err (f : Nat → Except PyErr KB) (t : Nat)
    (e : PyErr) (ts : List Nat) (hf : f t = Except.error e) :
    successFetchTimes f Option.none (t :: ts)
      = successFetchTimes f Option.none ts := by
  simp only [successFetchTimes, readKbTrace, read_kb_step, get_cached_kb,
    hf, List.filter_cons]
  simp [exceptIsOk]

theorem successFetchTimes_sep_some (f : Nat → Except PyErr KB) :
    ∀ (ts : List Nat) (t0 : Nat) (v : KB), List.Chain (· ≤ ·) t0 ts →
      List.Chain' (fun a b => a + TTL ≤ b)
        (t0 :: successFetchTimes f (some (t0, v)) ts) := by
  intro ts
  induction ts with
  | nil =>
      intro t0 v _
      rw [successFetchTimes_nil]
      exact List.chain'_singleton _
  | cons t ts ih =>
      intro t0 v hch
      rw [List.chain_cons] at hch
      obtain ⟨h01, hch2⟩ := hch
      have hch0 : List.Chain (· ≤ ·) t0 ts := by
        cases ts with
        | nil => exact List.Chain.nil
        | cons u us =>
            rw [List.chain_cons] at hch2 ⊢
            exact ⟨le_trans h01 hch2.1, hch2.2⟩
      by_cases hlt : t < t0 + TTL
      · rw [successFetchTimes_cons_hit f t t0 v ts hlt]
        exact ih t0 v hch0
      · cases hf : f t with
        | ok kb =>
            rw [successFetchTimes_cons_miss_ok f t t0 v kb ts hlt hf]
            rw [List.chain'_cons]
            exact ⟨by omega, ih t kb hch2⟩
        | error e =>
            rw [successFetchTimes_cons_miss_err f t t0 v e ts hlt hf]
            exact ih t0 v hch0

theorem successFetchTimes_sep (f : Nat → Except PyErr KB) :
    ∀ (ts : List Nat), List.Chain' (· ≤ ·) ts →
      List.Chain' (fun a b => a + TTL ≤ b)
        (successFetchTimes f Option.none ts) := by
  intro ts
  induction ts with
  | nil => intro _; rw [successFetchTimes_nil]; exact List.chain'_nil
  | cons t ts ih =>
      intro h
      have hch : List.Chain (· ≤ ·) t ts := h
      cases hf : f t with
      | ok kb =>
          rw [successFetchTimes_cons_none_ok f t kb ts hf]
          exact successFetchTimes_sep_some f ts t kb hch
      | error e =>
          rw [successFetchTimes_cons_none_err f t e ts hf]
          apply ih
          cases ts with
          | nil => exact List.chain'_nil
          | cons u us =>
              rw [List.chain_cons] at hch
              exact hch.2

/-- Counterexample for C3: when the remote help-center listing fails,
`ttl_cache` memoizes nothing, so two consecutive reads of the resource at
times 0 and 1 — within a single 3600-second window — both execute the
underlying `get_all_articles` fetch, refuting the unconditional "at most
once per 3600-second window". -/
theorem kb_cache_refetch_on_failure :
    fetchTimes
        (fun _ => Except.error
          (PyErr.valueError "Failed to fetch knowledge base: remote down"))
        Option.none [0, 1] = [0, 1] ∧
    (1 : Nat) < 0 + TTL :=
  ⟨rfl, by decide⟩

/-- C3 amended: every read within 3600 seconds of a successful, memoized
fetch returns the same memoized snapshot without executing the fetch again,
and over any monotone sequence of resource reads the successful executions
of the underlying fetch are at least 3600 seconds apart — at most one
successful fetch per 3600-second window.  (A fetch that raises is not
memoized, so only after failures can the fetch run more often.) -/
theorem kb_cache_ttl_amended :
    (∀ (f : Nat → Except PyErr KB) (now t0 : Nat) (v : KB), now < t0 + TTL →
      handle_read_resource f now (some (t0, v)) kbUri
        = (renderKb v, some (t0, v), false)) ∧
    (∀ (f : Nat → Except PyErr KB) (ts : List Nat), List.Chain' (· ≤ ·) ts →
      List.Chain' (fun a b => a + TTL ≤ b)
        (successFetchTimes f Option.none ts)) := by
  constructor
  · intro f now t0 v h
    rw [read_kb_step]
    simp [get_cached_kb, if_pos h]
    rfl
  · exact successFetchTimes_sep

/-- Witness for C3's amended statement: a read 5 seconds after a successful
fetch at time 0 serves the cached snapshot without fetching, and reads at
times 0, 10 and 4000 against a succeeding remote produce successful fetches
at least 3600 seconds apart. -/
theorem kb_cache_ttl_amended_witness :
    handle_read_resource (fun _ => Except.ok ([] : KB)) 5 (some (0, ([] : KB))) kbUri
      = (renderKb [], some (0, ([] : KB)), false) ∧
    List.Chain' (fun a b => a + TTL ≤ b)
      (successFetchTimes (fun _ => Except.ok ([] : KB)) Option.none [0, 10, 4000]) :=
  ⟨kb_cache_ttl_amended.1 (fun _ => Except.ok ([] : KB)) 5 0 [] (by decide),
   kb_cache_ttl_amended.2 (fun _ => Except.ok ([] : KB)) [0, 10, 4000]
     (List.chain'_cons.mpr ⟨by omega,
       List.chain'_cons.mpr ⟨by omega, List.chain'_singleton _⟩⟩)⟩

theorem isPrefixOf_append_self (l t : List Char) : l.isPrefixOf (l ++ t) = true := by
  rw [List.isPrefixOf_iff_prefix]
  exact ⟨t, rfl⟩

theorem isPrefixOf_exists (p s : List Char) (h : p.isPrefixOf s = true) :
    ∃ t, s = p ++ t := by
  rw [List.isPrefixOf_iff_prefix] at h
  obtain ⟨t, ht⟩ := h
  exact ⟨t, ht.symm⟩

theorem drop_getElem? {α : Type} (l : List α) :
    ∀ (i j : Nat), (l.drop i)[j]? = l[i + j]? := by
  induction l with
  | nil => intro i j; simp
  | cons x xs ih =>
      intro i j
      cases i with
      | zero => simp
      | succ n =>
          rw [List.drop_succ_cons, ih n j]
          rw [show n + 1 + j = n + j + 1 from by omega]
          rw [List.getElem?_cons_succ]

theorem replaceFuel_cons_match (pat rep : List Char) (n : Nat) (c : Char)
    (cs : List Char) (h : pat.isPrefixOf (c :: cs) = true) (hne : pat ≠ []) :
    replaceFuel pat rep (Nat.succ n) (c :: cs)
      = rep ++ replaceFuel pat rep n (List.drop (pat.length - 1) cs) := by
  have hemp : pat.isEmpty = false := by
    cases pat with
    | nil => exact absurd rfl hne
    | cons x xs => rfl
  have hg : (pat.isPrefixOf (c :: cs) && !pat.isEmpty) = true := by
    rw [h, hemp]; rfl
  show (if pat.isPrefixOf (c :: cs) && !pat.isEmpty then
          rep ++ replaceFuel pat rep n (List.drop (pat.length - 1) cs)
        else c :: replaceFuel pat rep n cs) = _
  rw [if_pos hg]

theorem replaceFuel_cons_else (pat rep : List Char) (n : Nat) (c : Char)
    (cs : List Char) (h : pat.isPrefixOf (c :: cs) = false) :
    replaceFuel pat rep (Nat.succ n) (c :: cs) = c :: replaceFuel pat rep n cs := by
  have hg : (pat.isPrefixOf (c :: cs) && !pat.isEmpty) = false := by
    rw [h]; rfl
  show (if pat.isPrefixOf (c :: cs) && !pat.isEmpty then
          rep ++ replaceFuel pat rep n (List.drop (pat.length - 1) cs)
        else c :: replaceFuel pat rep n cs) = _
  rw [hg]
  simp

theorem replaceFuel_append_keep (pat : List Char) :
    ∀ (a b : List Char) (fuel : Nat), a.length ≤ fuel →
      (∀ i, i < a.length → pat.isPrefixOf ((a ++ b).drop i) = false) →
      replaceFuel pat [] fuel (a ++ b)
        = a ++ replaceFuel pat [] (fuel - a.length) b := by
  intro a
  induction a with
  | nil => intro b fuel _ _; simp
  | cons c a2 ih =>
      intro b fuel hf hno
      cases fuel with
      | zero => simp at hf
      | succ n =>
          have h0 : pat.isPrefixOf (c :: (a2 ++ b)) = false := by
            have h := hno 0 (by simp)
            simpa using h
          have hf2 : a2.length ≤ n := by
            simp only [List.length_cons] at hf; omega
          have hsh : ∀ i, i < a2.length →
              pat.isPrefixOf ((a2 ++ b).drop i) = false := by
            intro i hi
            have h := hno (i + 1) (by simp only [List.length_cons]; omega)
            simpa [List.cons_append, List.drop_succ_cons] using h
          rw [List.cons_append, replaceFuel_cons_else pat [] n c (a2 ++ b) h0]
          rw [ih b n hf2 hsh]
          simp [Nat.succ_sub_succ]

theorem replaceFuel_start (rest : List Char) :
    replaceFuel ("zendesk://".toList) [] (rest.length + 10) ("zendesk://".toList ++ rest)
      = replaceFuel ("zendesk://".toList) [] (rest.length + 9) rest := by
  have hpre : ("zendesk://".toList).isPrefixOf
      ('z' :: ("endesk://".toList ++ rest)) = true :=
    isPrefixOf_append_self ("zendesk://".toList) rest
  rw [show ("zendesk://".toList ++ rest) = 'z' :: ("endesk://".toList ++ rest) from rfl]
  rw [show rest.length + 10 = Nat.succ (rest.length + 9) from rfl]
  rw [replaceFuel_cons_match _ _ _ _ _ hpre (by decide)]
  rw [List.nil_append]
  rw [show (("zendesk://".toList).length - 1) = ("endesk://".toList).length from rfl]
  rw [List.drop_left]

theorem no_occurrence_before_suffix (pre suf : List Char)
    (h1 : ∀ c ∈ pre, c ≠ '/')
    (h2 : pre.getLast? ≠ some ':')
    (h3 : suf = [] ∨ ∃ c t, suf = c :: t ∧ (c = '/' ∨ c = '?' ∨ c = '#')) :
    ∀ i, i < pre.length →
      ("zendesk://".toList).isPrefixOf ((pre ++ suf).drop i) = false := by
  intro i hi
  cases hocc : ("zendesk://".toList).isPrefixOf ((pre ++ suf).drop i) with
  | false => rfl
  | true =>
      exfalso
      obtain ⟨t, ht⟩ := isPrefixOf_exists _ _ hocc
      have hget : ∀ k, k < 10 → (pre ++ suf)[i + k]? = ("zendesk://".toList)[k]? := by
        intro k hk
        rw [← drop_getElem? (pre ++ suf) i k, ht]
        exact List.getElem?_append_left
          (by rw [show ("zendesk://".toList).length = 10 from rfl]; omega)
      have h7 : (pre ++ suf)[i + 7]? = some ':' := by
        rw [hget 7 (by omega)]; rfl
      have h8 : (pre ++ suf)[i + 8]? = some '/' := by
        rw [hget 8 (by omega)]; rfl
      rcases Nat.lt_trichotomy (i + 7) pre.length with hlt7 | heq7 | hgt7
      · have hp7 : pre[i + 7]? = some ':' := by
          rw [← List.getElem?_append_left hlt7]; exact h7
        rcases Nat.lt_or_ge (i + 8) pre.length with hlt8 | hge8
        · have hp8 : pre[i + 8]? = some '/' := by
            rw [← List.getElem?_append_left hlt8]; exact h8
          exact (h1 '/' (List.getElem?_mem hp8)) rfl
        · apply h2
          rw [List.getLast?_eq_getElem?]
          rw [show pre.length - 1 = i + 7 from by omega]
          exact hp7
      · have hs0 : suf[0]? = some ':' := by
          have h := h7
          rw [List.getElem?_append_right (by omega)] at h
          rw [show i + 7 - pre.length = 0 from by omega] at h
          exact h
        cases h3 with
        | inl he => rw [he] at hs0; exact absurd hs0 (by decide)
        | inr hex =>
            obtain ⟨c, t2, hse, hc⟩ := hex
            rw [hse, List.getElem?_cons_zero] at hs0
            rcases hc with hc | hc | hc <;> subst hc <;>
              exact absurd hs0 (by decide)
      · have hk1 : 1 ≤ pre.length - i := by omega
        have hk6 : pre.length - i < 7 := by omega
        have hsl : (pre ++ suf)[pre.length]? = ("zendesk://".toList)[pre.length - i]? := by
          have h := hget (pre.length - i) (by omega)
          rw [show i + (pre.length - i) = pre.length from by omega] at h
          exact h
        have hs0 : suf[0]? = ("zendesk://".toList)[pre.length - i]? := by
          rw [← hsl, List.getElem?_append_right (le_refl pre.length)]
          rw [show pre.length - pre.length = 0 from by omega]
        set k := pre.length - i with hkdef
        interval_cases k <;>
          (cases h3 with
           | inl he =>
               rw [he] at hs0
               exact absurd hs0 (by decide)
           | inr hex =>
               obtain ⟨c, t2, hse, hc⟩ := hex
               rw [hse, List.getElem?_cons_zero] at hs0
               rcases hc with hc | hc | hc <;> subst hc <;>
                 exact absurd hs0 (by decide))

theorem replaceFuel_nil (pat rep : List Char) (fuel : Nat) :
    replaceFuel pat rep fuel [] = [] := by
  cases fuel <;> rfl

theorem toList_append (a b : String) : (a ++ b).toList = a.toList ++ b.toList :=
  String.data_append a b

theorem pyReplace_zendesk (rest : List Char) (s : String)
    (hs : s.toList = "zendesk://".toList ++ rest) :
    pyReplace s "zendesk://" ""
      = String.mk (replaceFuel ("zendesk://".toList) [] (rest.length + 9) rest) := by
  rw [pyReplace, hs]
  rw [show ("zendesk://".toList ++ rest).length = rest.length + 10 from by
    rw [List.length_append, show ("zendesk://".toList).length = 10 from rfl]; omega]
  exact congrArg String.mk (replaceFuel_start rest)

theorem replace_core (pre suf : List Char)
    (h1 : ∀ c ∈ pre, c ≠ '/')
    (h2 : pre.getLast? ≠ some ':')
    (h3 : suf = [] ∨ ∃ c t, suf = c :: t ∧ (c = '/' ∨ c = '?' ∨ c = '#'))
    (hres : replaceFuel ("zendesk://".toList) [] ((pre ++ suf).length + 9) (pre ++ suf)
      = "knowledge-base".toList) :
    pre = "knowledge-base".toList ∧ suf = [] := by
  have hno := no_occurrence_before_suffix pre suf h1 h2 h3
  have hkeep := replaceFuel_append_keep ("zendesk://".toList) pre suf
      ((pre ++ suf).length + 9) (by rw [List.length_append]; omega) hno
  rw [hkeep] at hres
  rw [show (pre ++ suf).length + 9 - pre.length = suf.length + 9 from by
    rw [List.length_append]; omega] at hres
  rcases h3 with h3 | ⟨c, t, h3c, hc⟩
  · rw [h3, replaceFuel_nil, List.append_nil] at hres
    exact ⟨hres, h3⟩
  · rw [h3c] at hres
    rw [show (c :: t).length + 9 = Nat.succ (t.length + 9) from by
      simp only [List.length_cons]] at hres
    have hcfalse : ("zendesk://".toList).isPrefixOf (c :: t) = false := by
      rcases hc with hc | hc | hc <;> subst hc <;> rfl
    rw [replaceFuel_cons_else _ _ _ _ _ hcfalse] at hres
    exfalso
    have hmem : c ∈ pre ++ (c :: replaceFuel ("zendesk://".toList) [] (t.length + 9) t) :=
      List.mem_append_right _ (List.mem_cons_self _ _)
    rw [hres] at hmem
    rcases hc with hc | hc | hc <;> subst hc <;> exact absurd hmem (by decide)

theorem replace_eq_kb_inv (u : Uri) (hwf : wellFormedUri u)
    (hsch : u.scheme = "zendesk")
    (hrep : pyReplace (uriStr u) "zendesk://" "" = "knowledge-base") :
    u.userinfo = "" ∧ u.host = "knowledge-base" ∧ u.port = Option.none ∧
      u.suffix = "" := by
  obtain ⟨hu, hh, hp, hsfx⟩ := hwf
  set preL := ((renderUserinfo u.userinfo).toList ++ u.host.toList)
      ++ (renderPort u.port).toList with hpreLdef
  set sufL := u.suffix.toList with hsufLdef
  have h1 : ∀ c ∈ preL, c ≠ '/' := by
    intro c hc
    rw [hpreLdef] at hc
    rcases List.mem_append.mp hc with hc2 | hcp
    · rcases List.mem_append.mp hc2 with hcu | hch
      · by_cases h0 : u.userinfo = ""
        · rw [renderUserinfo, if_pos h0] at hcu
          simp at hcu
        · rw [renderUserinfo, if_neg h0, toList_append] at hcu
          rcases List.mem_append.mp hcu with hcu2 | hcu3
          · exact hu c hcu2
          · have hat : c = '@' := by simpa using hcu3
            rw [hat]; decide
      · exact (hh c hch).2
    · cases hport : u.port with
      | none =>
          rw [hport, renderPort] at hcp
          simp at hcp
      | some p =>
          rw [hport, renderPort, toList_append] at hcp
          rcases List.mem_append.mp hcp with hc4 | hc5
          · have hcl : c = ':' := by simpa using hc4
            rw [hcl]; decide
          · have hp2 : p ≠ "" ∧ ∀ c ∈ p.toList, c.isDigit = true := by
              rw [hport] at hp; exact hp
            have hd := hp2.2 c hc5
            intro he
            rw [he] at hd
            exact absurd hd (by decide)
  have h2 : preL.getLast? ≠ some ':' := by
    rw [hpreLdef]
    cases hport : u.port with
    | some p =>
        have hp2 : p ≠ "" ∧ ∀ c ∈ p.toList, c.isDigit = true := by
          rw [hport] at hp; exact hp
        rw [renderPort]
        rw [show (":" ++ p).toList = ':' :: p.toList from by rw [toList_append]; rfl]
        rw [List.getLast?_append_of_ne_nil _ (by simp)]
        cases hpl : p.toList with
        | nil =>
            exact absurd (String.ext (hpl : p.data = [])) hp2.1
        | cons d ds =>
            rw [List.getLast?_cons_cons]
            intro hcolon
            have hmem : (':' : Char) ∈ d :: ds := by
              rw [List.getLast?_eq_getElem?] at hcolon
              exact List.getElem?_mem hcolon
            have hd := hp2.2 ':' (by rw [hpl]; exact hmem)
            exact absurd hd (by decide)
    | none =>
        rw [renderPort]
        rw [show (("" : String).toList : List Char) = [] from rfl, List.append_nil]
        cases hhost : u.host.toList with
        | cons d ds =>
            rw [List.getLast?_append_of_ne_nil _ (by simp)]
            intro hcolon
            have hmem : (':' : Char) ∈ d :: ds := by
              rw [List.getLast?_eq_getElem?] at hcolon
              exact List.getElem?_mem hcolon
            exact (hh ':' (by rw [hhost]; exact hmem)).1 rfl
        | nil =>
            rw [List.append_nil]
            by_cases h0 : u.userinfo = ""
            · rw [renderUserinfo, if_pos h0]
              decide
            · rw [renderUserinfo, if_neg h0, toList_append]
              rw [List.getLast?_append_of_ne_nil _ (by decide)]
              decide
  have h3 : sufL = [] ∨ ∃ c t, sufL = c :: t ∧ (c = '/' ∨ c = '?' ∨ c = '#') := by
    cases hsl : sufL with
    | nil => exact Or.inl rfl
    | cons c t =>
        right
        refine ⟨c, t, rfl, ?_⟩
        have hsfx2 := hsfx
        rw [suffixStartOk] at hsfx2
        rw [show u.suffix.toList = sufL from hsufLdef.symm, hsl] at hsfx2
        have hor : (c = '/' ∨ c = '?') ∨ c = '#' := by simpa using hsfx2
        tauto
  have hjoin : ("zendesk".toList ++ "://".toList : List Char) = "zendesk://".toList := rfl
  have hsl2 : (uriStr u).toList = "zendesk://".toList ++ (preL ++ sufL) := by
    simp only [uriStr, hsch, uriRest, hpreLdef, hsufLdef, toList_append,
      List.append_assoc, ← hjoin]
  have hrep2 := hrep
  rw [pyReplace_zendesk (preL ++ sufL) (uriStr u) hsl2] at hrep2
  have hlist : replaceFuel ("zendesk://".toList) []
      ((preL ++ sufL).length + 9) (preL ++ sufL) = "knowledge-base".toList :=
    congrArg String.data hrep2
  obtain ⟨hpreeq, hsufeq⟩ := replace_core preL sufL h1 h2 h3 hlist
  have hsuffix : u.suffix = "" := by
    apply String.ext
    rw [hsufLdef] at hsufeq
    exact hsufeq
  have huser : u.userinfo = "" := by
    by_contra h0
    have hat : ('@' : Char) ∈ preL := by
      rw [hpreLdef]
      apply List.mem_append_left
      apply List.mem_append_left
      rw [renderUserinfo, if_neg h0, toList_append]
      exact List.mem_append_right _ (by decide)
    rw [hpreeq] at hat
    exact absurd hat (by decide)
  have hport : u.port = Option.none := by
    cases hpo : u.port with
    | none => rfl
    | some p =>
        exfalso
        have hcol : (':' : Char) ∈ preL := by
          rw [hpreLdef, hpo]
          apply List.mem_append_right
          rw [renderPort]
          rw [show (":" ++ p).toList = ':' :: p.toList from by rw [toList_append]; rfl]
          exact List.mem_cons_self _ _
        rw [hpreeq] at hcol
        exact absurd hcol (by decide)
  have hhostL : preL = u.host.toList := by
    rw [hpreLdef, huser, hport]
    rw [renderUserinfo, if_pos rfl, renderPort]
    rw [show (("" : String).toList : List Char) = [] from rfl]
    rw [List.nil_append, List.append_nil]
  have hhost : u.host = "knowledge-base" := by
    apply String.ext
    rw [show u.host.data = u.host.toList from rfl, ← hhostL]
    exact hpreeq
  exact ⟨huser, hhost, hport, hsuffix⟩

/-- C6: over the URIs the protocol layer can deliver (pydantic `AnyUrl`
hands the handler a WHATWG-normalized URL), `handle_read_resource` raises
`ValueError` whenever the scheme is not `zendesk` or the remainder of the
serialized URI after the `zendesk://` prefix is not exactly
`knowledge-base`, and it attempts to fetch the knowledge base only for the
single URI `zendesk://knowledge-base` — matching the one resource advertised
by `handle_list_resources`.  Although the handler's `str.replace` deletes
every occurrence of `zendesk://`, no normalized serialization other than
the advertised URI passes the path check: a second occurrence would need a
`:` inside the host, a port starting with `/`, or a suffix not introduced
by `/`, `?` or `#`, all of which normalization excludes. -/
theorem read_resource_uri_validation (f : Nat → Except PyErr KB) (now : Nat)
    (st : Option (Nat × KB)) (u : Uri) (hwf : wellFormedUri u) :
    (u.scheme ≠ "zendesk" →
      handle_read_resource f now st u
        = (Except.error (PyErr.valueError ("Unsupported URI scheme: " ++ u.scheme)),
           st, false)) ∧
    (u.scheme = "zendesk" → uriRest u ≠ "knowledge-base" →
      handle_read_resource f now st u
        = (Except.error (PyErr.valueError
             ("Unknown resource path: " ++ pyReplace (uriStr u) "zendesk://" "")),
           st, false)) ∧
    (u.scheme = "zendesk" → uriRest u = "knowledge-base" →
      handle_read_resource f now st u
        = (Except.bind (get_cached_kb f now st).1 renderKb,
           (get_cached_kb f now st).2.1, (get_cached_kb f now st).2.2)) ∧
    handle_list_resources.map (fun r => uriStr r.uri) = [uriStr kbUri] := by
  refine ⟨?_, ?_, ?_, rfl⟩
  · intro h
    rw [handle_read_resource, if_pos h]
  · intro hsch hrest
    have hpath : pyReplace (uriStr u) "zendesk://" "" ≠ "knowledge-base" := by
      intro hrep
      obtain ⟨h1, h2, h3, h4⟩ := replace_eq_kb_inv u hwf hsch hrep
      apply hrest
      rw [uriRest, h1, h2, h3, h4]
      rfl
    rw [handle_read_resource, if_neg (by simp [hsch])]
    simp only [if_pos hpath]
  · intro hsch hrest
    have hpath : pyReplace (uriStr u) "zendesk://" "" = "knowledge-base" := by
      rw [uriStr, hsch, hrest]
      rfl
    rw [handle_read_resource, if_neg (by simp [hsch])]
    simp only [hpath, if_neg (by simp : ¬ "knowledge-base" ≠ "knowledge-base")]

/-- Witness for C6: a non-`zendesk` scheme and a wrong path are rejected
with `ValueError` and no fetch, while the advertised URI reaches the
knowledge-base fetch. -/
theorem read_resource_uri_validation_witness :
    handle_read_resource (fun _ => Except.ok ([] : KB)) 0 Option.none
        (Uri.mk "http" "" "x" Option.none "")
      = (Except.error (PyErr.valueError ("Unsupported URI scheme: " ++ "http")),
         Option.none, false) ∧
    handle_read_resource (fun _ => Except.ok ([] : KB)) 0 Option.none
        (Uri.mk "zendesk" "" "other" Option.none "")
      = (Except.error (PyErr.valueError ("Unknown resource path: "
           ++ pyReplace (uriStr (Uri.mk "zendesk" "" "other" Option.none ""))
               "zendesk://" "")),
         Option.none, false) ∧
    handle_read_resource (fun _ => Except.ok ([] : KB)) 0 Option.none kbUri
      = (Except.bind (get_cached_kb (fun _ => Except.ok ([] : KB)) 0 Option.none).1
           renderKb,
         (get_cached_kb (fun _ => Except.ok ([] : KB)) 0 Option.none).2.1,
         (get_cached_kb (fun _ => Except.ok ([] : KB)) 0 Option.none).2.2) :=
  ⟨(read_resource_uri_validation _ 0 Option.none (Uri.mk "http" "" "x" Option.none "")
      ⟨by decide, by decide, trivial, rfl⟩).1 (by decide),
   (read_resource_uri_validation _ 0 Option.none
      (Uri.mk "zendesk" "" "other" Option.none "")
      ⟨by decide, by decide, trivial, rfl⟩).2.1 rfl (by decide),
   (read_resource_uri_validation _ 0 Option.none kbUri
      ⟨by decide, by decide, trivial, rfl⟩).2.2.1 rfl rfl⟩
